import Mathlib

/-!
Shallow embedding of the Pure Storage FlashBlade Manila share driver
(`manila/share/drivers/purestorage/flashblade.py`).

The driver is a control-plane adapter: each operation derives array-side
resource names from orchestrator records, looks resources up on the array,
and issues create/update/delete calls against the array SDK.  We embed the
pure driver logic directly and model the array collaborator explicitly:

* `FBState` is the array-side state visible through the SDK list calls
  (which filesystem names exist, which `(source, suffix)` snapshots exist).
* `Call` records every SDK call an operation issues, in order; each driver
  operation returns its outcome (`Except PyExc`) together with its call
  trace.  `applyCall` gives the array-side semantics of each call.
* `PyExc` models the Python exceptions that matter to the control flow of
  the driver.  Python `except C` clauses match on the exact class we model; the
  relevant manila exception classes (`ShareResourceNotFound`,
  `ShareSnapshotNotFound`, `InvalidShare`, ...) are sibling classes, none a
  subclass of another, so an `except ShareResourceNotFound` clause does not
  catch a `ShareSnapshotNotFound`.
-/

set_option autoImplicit false

namespace FlashBlade

/-- Decidable equality of `Except` results, so that concrete runs of the
modelled operations can be checked by `decide`. -/
instance {ε α : Type} [DecidableEq ε] [DecidableEq α] :
    DecidableEq (Except ε α) := fun a b =>
  match a, b with
  | Except.ok x, Except.ok y =>
      if h : x = y then Decidable.isTrue (by rw [h])
      else Decidable.isFalse (fun hc => by cases hc; exact h rfl)
  | Except.error x, Except.error y =>
      if h : x = y then Decidable.isTrue (by rw [h])
      else Decidable.isFalse (fun hc => by cases hc; exact h rfl)
  | Except.ok _, Except.error _ => Decidable.isFalse (fun hc => by cases hc)
  | Except.error _, Except.ok _ => Decidable.isFalse (fun hc => by cases hc)

/-- Constant `oslo_utils.units.Gi = 2^30`. -/
def unitsGi : Int := 1073741824

/-- Exceptions relevant to the control flow of the driver.  Each constructor is
one concrete Python exception class raised or caught in the source. -/
inductive PyExc where
  | shareResourceNotFound (shareId : String)
  | shareSnapshotNotFound (snapshotId : String)
  | invalidShare (reason : String)
  | invalidShareAccessLevel (level : String)
  | shareBackendException (msg : String)
  | indexError
  | nameError (var : String)
deriving DecidableEq, Repr

/-- Orchestrator share record (read-only input, §3 of the design). -/
structure Share where
  id : String
  size : Int
  share_proto : String
  share_instance_id : String
deriving DecidableEq, Repr

/-- Orchestrator snapshot record. -/
structure Snapshot where
  id : String
  share_instance_id : String
deriving DecidableEq, Repr

/-- Orchestrator access rule. -/
structure AccessRule where
  access_type : String
  access_to : String
  access_level : String
deriving DecidableEq, Repr

/-- The attribute records the driver passes to `purity_fb.FileSystem`,
flattened: the nested `NfsRule`/`ProtocolRule` objects become the
`nfs_*`/`smb_enabled` fields.  `none` means the keyword was not passed. -/
structure FileSystemSpec where
  name : Option String
  provisioned : Option Int
  hard_limit_enabled : Option Bool
  fast_remove_directory_enabled : Option Bool
  snapshot_directory_enabled : Option Bool
  nfs_v3_enabled : Option Bool
  nfs_v4_1_enabled : Option Bool
  nfs_enabled : Option Bool
  nfs_rules : Option String
  smb_enabled : Option Bool
  destroyed : Option Bool
deriving DecidableEq, Repr

/-- A `FileSystemSpec` with no keyword set. -/
def emptySpec : FileSystemSpec :=
  { name := none, provisioned := none, hard_limit_enabled := none,
    fast_remove_directory_enabled := none, snapshot_directory_enabled := none,
    nfs_v3_enabled := none, nfs_v4_1_enabled := none, nfs_enabled := none,
    nfs_rules := none, smb_enabled := none, destroyed := none }

/-- One SDK call issued by the driver, with the arguments it passes
(§6 collaborator surface). -/
inductive Call where
  | listVersions
  | listFileSystems (names : List String)
  | listFileSystemSnapshots (filterExpr : String)
  | createFileSystems (fs : FileSystemSpec)
  | updateFileSystems (name : String) (attributes : FileSystemSpec)
  | deleteFileSystems (name : String)
  | createFileSystemSnapshots (sources : List String) (suffix : String)
  | updateFileSystemSnapshots (name : String) (destroyed : Bool)
  | deleteFileSystemSnapshots (name : String)
deriving DecidableEq, Repr

/-- Array-side state observable through the SDK list calls: the filesystem
names that exist and the `(source, suffix)` snapshots that exist.  A
soft-deleted (`destroyed=true`, not yet eradicated) resource is still
listed — it is recoverable until eradicated (§3, glossary). -/
structure FBState where
  filesystems : List String
  snapshots : List (String × String)
deriving DecidableEq, Repr

/-- Driver configuration values used by the modelled operations. -/
structure Config where
  data_address : String
  flashblade_eradicate : Bool
deriving DecidableEq, Repr

/-- Array-side effect of one SDK call (the collaborator contract of §6). -/
def applyCall (st : FBState) : Call → FBState
  | Call.createFileSystems fs =>
      match fs.name with
      | some n => { st with filesystems := n :: st.filesystems }
      | none => st
  | Call.deleteFileSystems n =>
      { st with filesystems := st.filesystems.filter (fun m => m ≠ n) }
  | Call.createFileSystemSnapshots sources sfx =>
      { st with snapshots := sources.map (fun s => (s, sfx)) ++ st.snapshots }
  | Call.deleteFileSystemSnapshots n =>
      { st with snapshots :=
          st.snapshots.filter (fun p => p.1 ++ "," ++ p.2 ≠ n) }
  | _ => st

/-- Run a call trace against the array state. -/
def applyCalls (st : FBState) (cs : List Call) : FBState :=
  cs.foldl applyCall st

/-! ### Naming policy (`_make_share_name`, `_make_source_name`) -/

/-- Source `_make_share_name`: the format string `share-%s-manila`
applied to the share id. -/
def make_share_name (manila_share : Share) : String :=
  "share-" ++ manila_share.id ++ "-manila"

/-- Source `_make_source_name`: the format string `share-%s-manila`
applied to the snapshot share_instance_id. -/
def make_source_name (snapshot : Snapshot) : String :=
  "share-" ++ snapshot.share_instance_id ++ "-manila"

/-! ### Access translator (`_MANILA_TO_FLASHBLADE_ACCESS_LEVEL`,
`_get_flashblade_access_level`) -/

/-- Source `_MANILA_TO_FLASHBLADE_ACCESS_LEVEL`: dict lookup.  The manila constants
`ACCESS_LEVEL_RW`/`ACCESS_LEVEL_RO` are the strings `rw`/`ro` (§3, §4.2). -/
def manilaToFlashbladeAccessLevel (level : String) : Option String :=
  if level == "rw" then some "rw"
  else if level == "ro" then some "ro"
  else none

/-- Source `_get_flashblade_access_level`: dict lookup, `KeyError` becomes
`InvalidShareAccessLevel(level=access_level)`. -/
def get_flashblade_access_level (access : AccessRule) : Except PyExc String :=
  match manilaToFlashbladeAccessLevel access.access_level with
  | some l => Except.ok l
  | none => Except.error (PyExc.invalidShareAccessLevel access.access_level)

/-- The rule-string accumulation loop of `_update_nfs_access`: for each
rule whose access_type is `ip`, append to `nfs_rules` the clause made of
access_to, an opening paren, the translated level, the text
`,no_root_squash)` and a trailing space; `_get_flashblade_access_level`
raises out of the loop on an unknown level. -/
def nfsRulesLoop : List AccessRule → String → Except PyExc String
  | [], acc => Except.ok acc
  | a :: rest, acc =>
      if a.access_type == "ip" then
        match get_flashblade_access_level a with
        | Except.error e => Except.error e
        | Except.ok lvl =>
            nfsRulesLoop rest
              (acc ++ (a.access_to ++ "(" ++ lvl ++ ",no_root_squash) "))
      else
        nfsRulesLoop rest acc

/-- The clause one rule contributes to the rendered rule-string (what the
loop appends for an `ip` rule with a known level, nothing otherwise). -/
def ruleClause (a : AccessRule) : String :=
  if a.access_type == "ip" then
    match manilaToFlashbladeAccessLevel a.access_level with
    | some lvl => a.access_to ++ "(" ++ lvl ++ ",no_root_squash) "
    | none => ""
  else ""

/-! ### Export path formatters -/

/-- Source `_get_full_nfs_export_path`: the format template
subnet_ip, then `:/`, then export_path. -/
def get_full_nfs_export_path (cfg : Config) (export_path : String) : String :=
  cfg.data_address ++ ":/" ++ export_path

/-- Source `_get_full_cifs_export_path`: the Python template literal is
backslash-backslash, subnet_ip placeholder, backslash, export_path
placeholder.  In Python source, the backslash-backslash escape denotes ONE
backslash character, and a backslash before a brace is an unrecognized
escape left as-is — so after `.format` the rendered string is backslash,
address, backslash, name: a SINGLE backslash before each component, not
the UNC double backslash. -/
def get_full_cifs_export_path (cfg : Config) (export_path : String) : String :=
  "\\" ++ cfg.data_address ++ "\\" ++ export_path

/-! ### Resource locator (`_get_flashblade_filesystem_by_name`,
`_get_flashblade_snapshot_by_name`) -/

/-- Source `_get_flashblade_filesystem_by_name`: calls
`list_file_systems(names=[name])`.  Per the collaborator contract (§4.4,
§6) the result set carries one item per requested name, the item being
empty for an absent name, so `if not res.items[0]` raises
`ShareResourceNotFound(share_id=name)` exactly when the name is absent. -/
def get_flashblade_filesystem_by_name (st : FBState) (name : String) :
    Except PyExc String × List Call :=
  if st.filesystems.contains name then
    (Except.ok name, [Call.listFileSystems [name]])
  else
    (Except.error (PyExc.shareResourceNotFound name),
     [Call.listFileSystems [name]])

/-- The filter expression `delete_snapshot` builds: the text `source=`,
the source name wrapped in single-quote characters (ASCII 39), the text
` and suffix=`, and the snapshot id wrapped the same way. -/
def snapFilter (source suffix : String) : String :=
  let q := String.singleton (Char.ofNat 39)
  "source=" ++ q ++ source ++ q ++ " and suffix=" ++ q ++ suffix ++ q

/-- Source `_get_flashblade_snapshot_by_name`: calls
`list_file_system_snapshots(filter=name)` and returns `resu.items[0]`.
Per §6 the collaborator returns the list of matching snapshots (possibly
empty); on an empty result `resu.items[0]` is a Python `IndexError`.  The
branch `except exception.InvalidShare` in the source (which would raise
`ShareSnapshotNotFound`) can only fire if the SDK call raised the manila
`InvalidShare` exception, which the §6 contract (SDK calls raise only API
faults) never produces, so that branch is dead and no catchable
not-found exception is produced here. -/
def get_flashblade_snapshot_by_name (st : FBState) (name : String) :
    Except PyExc (String × String) × List Call :=
  let items := st.snapshots.filter (fun p => snapFilter p.1 p.2 == name)
  match items.head? with
  | some s => (Except.ok s, [Call.listFileSystemSnapshots name])
  | none => (Except.error PyExc.indexError, [Call.listFileSystemSnapshots name])

/-! ### Lifecycle operations -/

/-- Source `_resize_share`: locate by name; `except ShareResourceNotFound` logs and
returns; otherwise update `provisioned = new_size * units.Gi`. -/
def resize_share (st : FBState) (share : Share) (new_size : Int) :
    Except PyExc Unit × List Call :=
  let dataset_name := make_share_name share
  match get_flashblade_filesystem_by_name st dataset_name with
  | (Except.error (PyExc.shareResourceNotFound _), calls) =>
      (Except.ok (), calls)
  | (Except.error e, calls) => (Except.error e, calls)
  | (Except.ok _, calls) =>
      (Except.ok (),
       calls ++ [Call.updateFileSystems dataset_name
         { emptySpec with provisioned := some (new_size * unitsGi) }])

/-- Source `_update_nfs_access`: locate by name (`except ShareResourceNotFound`
logs and returns); then run the rule loop; then one
`update_file_systems(name, FileSystem(nfs=NfsRule(rules=nfs_rules)))`. -/
def update_nfs_access (st : FBState) (share : Share)
    (access_rules : List AccessRule) : Except PyExc Unit × List Call :=
  let dataset_name := make_share_name share
  match get_flashblade_filesystem_by_name st dataset_name with
  | (Except.error (PyExc.shareResourceNotFound _), calls) =>
      (Except.ok (), calls)
  | (Except.error e, calls) => (Except.error e, calls)
  | (Except.ok _, calls) =>
      match nfsRulesLoop access_rules "" with
      | Except.error e => (Except.error e, calls)
      | Except.ok nfs_rules =>
          (Except.ok (),
           calls ++ [Call.updateFileSystems dataset_name
             { emptySpec with nfs_rules := some nfs_rules }])

/-- Source `update_access`: dispatches to `_update_nfs_access` when the
share protocol equals `NFS`; otherwise falls through (no call, no
error — the CIFS case is an acknowledged gap marked TODO). -/
def update_access (st : FBState) (share : Share)
    (access_rules add_rules delete_rules : List AccessRule) :
    Except PyExc Unit × List Call :=
  if share.share_proto == "NFS" then update_nfs_access st share access_rules
  else (Except.ok (), [])

/-- Source `create_share`: size is the share size times `units.Gi`; the NFS branch queries
`list_versions()` and builds either the v3+v4.1 spec (API 1.6) or the
legacy `NfsRule(enabled=True)` spec; CIFS branch builds an SMB spec; any
other protocol raises `InvalidShare`.  Returns the export location. -/
def create_share (cfg : Config) (versions : List String) (share : Share) :
    Except PyExc String × List Call :=
  let size := share.size * unitsGi
  let share_name := make_share_name share
  if share.share_proto == "NFS" then
    let flashblade_fs : FileSystemSpec :=
      if versions.contains "1.6" then
        { emptySpec with
            name := some share_name, provisioned := some size,
            hard_limit_enabled := some true,
            fast_remove_directory_enabled := some true,
            snapshot_directory_enabled := some true,
            nfs_v3_enabled := some true, nfs_rules := some "",
            nfs_v4_1_enabled := some true }
      else
        { emptySpec with
            name := some share_name, provisioned := some size,
            hard_limit_enabled := some true,
            fast_remove_directory_enabled := some true,
            snapshot_directory_enabled := some true,
            nfs_enabled := some true, nfs_rules := some "" }
    (Except.ok (get_full_nfs_export_path cfg share_name),
     [Call.listVersions, Call.createFileSystems flashblade_fs])
  else if share.share_proto == "CIFS" then
    let flashblade_fs : FileSystemSpec :=
      { emptySpec with
          name := some share_name, provisioned := some size,
          hard_limit_enabled := some true,
          fast_remove_directory_enabled := some true,
          snapshot_directory_enabled := some true,
          smb_enabled := some true }
    (Except.ok (get_full_cifs_export_path cfg share_name),
     [Call.createFileSystems flashblade_fs])
  else
    (Except.error (PyExc.invalidShare
       ("Unsupported share protocol: " ++ share.share_proto ++ ".")), [])

/-- Source `create_snapshot`: derives the source name and directly calls
`create_file_system_snapshots` with that single source and the snapshot
id as suffix —
no locator lookup first.  Per §6 the SDK call raises only an API fault
(here when the source filesystem is absent), which the error-translation
shim turns into a backend exception; the surrounding
`except ShareResourceNotFound` cannot catch it. -/
def create_snapshot (st : FBState) (snapshot : Snapshot) :
    Except PyExc Unit × List Call :=
  let flashblade_filesystem := make_source_name snapshot
  let source := [flashblade_filesystem]
  let result :=
    if st.filesystems.contains flashblade_filesystem then Except.ok ()
    else Except.error (PyExc.shareBackendException
      ("Caught exception from purity_fb: source not found " ++
        flashblade_filesystem))
  (result, [Call.createFileSystemSnapshots source snapshot.id])

/-- Source `delete_share`: locate by name (`except ShareResourceNotFound` logs
"skip delete" and returns); otherwise one combined update disabling NFS
v3/v4.1 and SMB and setting `destroyed=True`, then, only when
`flashblade_eradicate` is set, `delete_file_systems(dataset_name)`. -/
def delete_share (cfg : Config) (st : FBState) (share : Share) :
    Except PyExc Unit × List Call :=
  let dataset_name := make_share_name share
  match get_flashblade_filesystem_by_name st dataset_name with
  | (Except.error (PyExc.shareResourceNotFound _), calls) =>
      (Except.ok (), calls)
  | (Except.error e, calls) => (Except.error e, calls)
  | (Except.ok _, calls) =>
      let calls := calls ++ [Call.updateFileSystems dataset_name
        { emptySpec with
            nfs_v3_enabled := some false, nfs_v4_1_enabled := some false,
            smb_enabled := some false, destroyed := some true }]
      let calls :=
        if cfg.flashblade_eradicate then
          calls ++ [Call.deleteFileSystems dataset_name]
        else calls
      (Except.ok (), calls)

/-- Source `delete_snapshot`: builds the filter and the qualified name
(source name, a comma, the snapshot id), then calls the snapshot
locator inside `try ... except exception.ShareResourceNotFound`.  The
locator produces `IndexError` when the snapshot is absent (and could at
best produce `ShareSnapshotNotFound`); neither is the class the clause
names, so the exception propagates.  Were the clause ever entered, its
`LOG.warning(..., {"snapshot": flashblade_snapshot})` references the local
`flashblade_snapshot` whose assignment just raised — an unbound local, a
Python `NameError` — so we embed that branch as raising `nameError`.
On success: `update_file_system_snapshots(name, destroyed=True)`, then,
only when `flashblade_eradicate` is set,
`delete_file_system_snapshots(name)`. -/
def delete_snapshot (cfg : Config) (st : FBState) (snapshot : Snapshot) :
    Except PyExc Unit × List Call :=
  let dataset_name := make_source_name snapshot
  let filt := snapFilter dataset_name snapshot.id
  let name := dataset_name ++ "," ++ snapshot.id
  match get_flashblade_snapshot_by_name st filt with
  | (Except.error (PyExc.shareResourceNotFound _), calls) =>
      (Except.error (PyExc.nameError "flashblade_snapshot"), calls)
  | (Except.error e, calls) => (Except.error e, calls)
  | (Except.ok _, calls) =>
      let calls := calls ++ [Call.updateFileSystemSnapshots name true]
      let calls :=
        if cfg.flashblade_eradicate then
          calls ++ [Call.deleteFileSystemSnapshots name]
        else calls
      (Except.ok (), calls)

/-! ### Capacity reporter (`_get_available_capacity`,
`_update_share_stats`) -/

/-- The fields of one array space record (`space.items[0]`). -/
structure ArraySpace where
  capacity : Int
  total_physical : Int
  unique : Int
  data_reduction : Rat
deriving DecidableEq, Repr

/-- Source `_get_available_capacity`: returns
`(free, physical, provisioned, data_reduction)` with
`free = capacity - total_physical`, `physical = capacity`,
`provisioned = unique`. -/
def get_available_capacity (array_space : ArraySpace) :
    Int × Int × Int × Rat :=
  let physical_capacity_bytes := array_space.capacity
  let used_capacity_bytes := array_space.total_physical
  let free_capacity_bytes := physical_capacity_bytes - used_capacity_bytes
  let provisioned_capacity_bytes := array_space.unique
  (free_capacity_bytes, physical_capacity_bytes,
   provisioned_capacity_bytes, array_space.data_reduction)

/-- The capacity fields of the stats record `_update_share_stats` builds
(exact arithmetic stands in for Python float division by `units.Gi`). -/
structure ShareStats where
  total_capacity_gb : Rat
  free_capacity_gb : Rat
  provisioned_capacity_gb : Rat
  data_reduction : Rat
deriving DecidableEq, Repr

/-- Source `_update_share_stats`: each byte figure from
`_get_available_capacity` divided by `units.Gi = 2^30`. -/
def update_share_stats (array_space : ArraySpace) : ShareStats :=
  let r := get_available_capacity array_space
  { total_capacity_gb := (r.2.1 : Rat) / (unitsGi : Rat),
    free_capacity_gb := (r.1 : Rat) / (unitsGi : Rat),
    provisioned_capacity_gb := (r.2.2.1 : Rat) / (unitsGi : Rat),
    data_reduction := r.2.2.2 }

/-! ### Trace predicates

Executable predicates over call traces, used to state the temporal and
frame properties. -/

/-- Calls that mutate array state (creates, updates, deletes). -/
def isMutatingCall : Call → Bool
  | Call.createFileSystems _ => true
  | Call.updateFileSystems _ _ => true
  | Call.deleteFileSystems _ => true
  | Call.createFileSystemSnapshots _ _ => true
  | Call.updateFileSystemSnapshots _ _ => true
  | Call.deleteFileSystemSnapshots _ => true
  | _ => false

/-- The read-only Resource Locator lookups (§4.4): `list_file_systems`
and `list_file_system_snapshots`. -/
def isLocatorCall : Call → Bool
  | Call.listFileSystems _ => true
  | Call.listFileSystemSnapshots _ => true
  | _ => false

/-- Predicate `locatorBeforeMutation seen calls`: holds when every mutating call in
`calls` is preceded by some locator lookup (`seen` records whether one was
already issued). -/
def locatorBeforeMutation : Bool → List Call → Bool
  | _, [] => true
  | seen, c :: rest =>
      if isMutatingCall c then seen && locatorBeforeMutation seen rest
      else locatorBeforeMutation (seen || isLocatorCall c) rest

/-- Predicate `eradicationGuard eradicate softFS softSnap calls`: holds when, along
`calls`, every hard delete (`delete_file_systems` /
`delete_file_system_snapshots`) names a resource already soft-deleted
earlier in the trace (an update setting `destroyed=true` on that name;
`softFS`/`softSnap` carry the names soft-deleted so far) and occurs only
when the eradication flag is set. -/
def eradicationGuard (eradicate : Bool) :
    List String → List String → List Call → Bool
  | _, _, [] => true
  | softFS, softSnap, c :: rest =>
      match c with
      | Call.updateFileSystems n attrs =>
          eradicationGuard eradicate
            (if attrs.destroyed == some true then n :: softFS else softFS)
            softSnap rest
      | Call.updateFileSystemSnapshots n d =>
          eradicationGuard eradicate softFS
            (if d then n :: softSnap else softSnap) rest
      | Call.deleteFileSystems n =>
          eradicate && softFS.contains n &&
            eradicationGuard eradicate softFS softSnap rest
      | Call.deleteFileSystemSnapshots n =>
          eradicate && softSnap.contains n &&
            eradicationGuard eradicate softFS softSnap rest
      | _ => eradicationGuard eradicate softFS softSnap rest

/-! ### Spec-side rendering of the rule-string (§4.2)

`renderedRules` is the description of the reduction in the specification: one
clause per `ip` rule, concatenated in input order, nothing for other
rules.  The theorems compare the source loop `nfsRulesLoop` against it. -/

/-- Clause-per-rule concatenation in input order. -/
def renderedRules : List AccessRule → String
  | [] => ""
  | a :: rest => ruleClause a ++ renderedRules rest

/-- A rule that makes the loop raise: an `ip` rule whose level is outside
the translation table. -/
def badRule (a : AccessRule) : Bool :=
  a.access_type == "ip" &&
    (manilaToFlashbladeAccessLevel a.access_level).isNone

/-! ## Theorems -/

/-- Helper: on a rule list whose `ip` rules all translate, the source loop
returns `acc` followed by the clauses in input order. -/
theorem nfsRulesLoop_append (rules : List AccessRule) (acc : String)
    (h : ∀ a ∈ rules, a.access_type = "ip" →
      (manilaToFlashbladeAccessLevel a.access_level).isSome) :
    nfsRulesLoop rules acc = Except.ok (acc ++ renderedRules rules) := by
  induction rules generalizing acc with
  | nil => simp [nfsRulesLoop, renderedRules]
  | cons a rest ih =>
      have hrest : ∀ b ∈ rest, b.access_type = "ip" →
          (manilaToFlashbladeAccessLevel b.access_level).isSome :=
        fun b hb => h b (List.mem_cons_of_mem a hb)
      by_cases hip : a.access_type = "ip"
      · have hs := h a (List.mem_cons_self a rest) hip
        cases hlv : manilaToFlashbladeAccessLevel a.access_level with
        | none => rw [hlv] at hs; simp at hs
        | some lvl =>
            simp [nfsRulesLoop, hip, get_flashblade_access_level, hlv,
              renderedRules, ruleClause, ih _ hrest, String.append_assoc]
      · simp [nfsRulesLoop, hip, renderedRules, ruleClause, ih _ hrest]

/-- Helper: the loop raises `InvalidShareAccessLevel` carrying the level of
the first offending `ip` rule, whatever has been accumulated so far. -/
theorem nfsRulesLoop_badRule (rules : List AccessRule) (acc : String)
    (r : AccessRule) (h : rules.find? badRule = some r) :
    nfsRulesLoop rules acc =
      Except.error (PyExc.invalidShareAccessLevel r.access_level) := by
  induction rules generalizing acc with
  | nil => simp at h
  | cons a rest ih =>
      by_cases hb : badRule a
      · rw [List.find?_cons_of_pos _ hb] at h
        injection h with h
        subst h
        have hb2 : (a.access_type == "ip") = true ∧
            (manilaToFlashbladeAccessLevel a.access_level).isNone = true := by
          simpa [badRule, Bool.and_eq_true] using hb
        have hnone : manilaToFlashbladeAccessLevel a.access_level = none :=
          Option.isNone_iff_eq_none.mp hb2.2
        simp [nfsRulesLoop, hb2.1, get_flashblade_access_level, hnone]
      · rw [List.find?_cons_of_neg _ hb] at h
        by_cases hip : a.access_type = "ip"
        · cases hlv : manilaToFlashbladeAccessLevel a.access_level with
          | none => exact absurd (by simp [badRule, hip, hlv]) hb
          | some lvl =>
              simp [nfsRulesLoop, hip, get_flashblade_access_level, hlv, ih _ h]
        · simp [nfsRulesLoop, hip, ih _ h]

/-- C3: on any rule list whose `ip` rules carry a known level, the NFS
rule-string reduction yields exactly one clause
`<access_to>(<level>,no_root_squash) ` per `ip` rule, concatenated in
input order; non-`ip` rules contribute nothing, and a list with no `ip`
rules (in particular `[]`) yields the empty string. -/
theorem nfs_rule_string_reduction (rules : List AccessRule)
    (h : ∀ a ∈ rules, a.access_type = "ip" →
      a.access_level = "rw" ∨ a.access_level = "ro") :
    nfsRulesLoop rules "" = Except.ok (renderedRules rules) := by
  have h2 : ∀ a ∈ rules, a.access_type = "ip" →
      (manilaToFlashbladeAccessLevel a.access_level).isSome := by
    intro a ha hip
    rcases h a ha hip with hl | hl <;>
      simp [manilaToFlashbladeAccessLevel, hl]
  simpa [String.empty_append] using nfsRulesLoop_append rules "" h2

/-- C3 witness: the concrete instance from the claim, with a non-`ip` rule
interposed; the rendered string is
`10.0.0.1(rw,no_root_squash) 10.0.0.2(ro,no_root_squash) `. -/
theorem nfs_rule_string_reduction_witness :
    (∀ a ∈ [AccessRule.mk "ip" "10.0.0.1" "rw",
            AccessRule.mk "user" "alice" "rw",
            AccessRule.mk "ip" "10.0.0.2" "ro"],
        a.access_type = "ip" →
          a.access_level = "rw" ∨ a.access_level = "ro") ∧
    nfsRulesLoop [AccessRule.mk "ip" "10.0.0.1" "rw",
                  AccessRule.mk "user" "alice" "rw",
                  AccessRule.mk "ip" "10.0.0.2" "ro"] "" =
      Except.ok "10.0.0.1(rw,no_root_squash) 10.0.0.2(ro,no_root_squash) " :=
  ⟨by decide,
   (nfs_rule_string_reduction _ (by decide)).trans rfl⟩

/-- C4: on an NFS share present on the array, a rule list containing an
`ip` rule whose level is outside `{rw, ro}` makes `update_access` raise
`InvalidShareAccessLevel` carrying the offending level of one such rule,
and the call trace holds only the locator lookup — no
`update_file_systems` is issued, so no partial rule-string is applied. -/
theorem invalid_access_level_aborts_update (st : FBState) (i : String)
    (sz : Int) (inst : String) (rules ar dr : List AccessRule)
    (hpresent : st.filesystems.contains
      (make_share_name ⟨i, sz, "NFS", inst⟩) = true)
    (hbad : ∃ a ∈ rules, a.access_type = "ip" ∧
      a.access_level ≠ "rw" ∧ a.access_level ≠ "ro") :
    ∃ lvl,
      (update_access st ⟨i, sz, "NFS", inst⟩ rules ar dr).1 =
        Except.error (PyExc.invalidShareAccessLevel lvl) ∧
      (∃ a ∈ rules, a.access_type = "ip" ∧ a.access_level = lvl) ∧
      lvl ≠ "rw" ∧ lvl ≠ "ro" ∧
      (update_access st ⟨i, sz, "NFS", inst⟩ rules ar dr).2 =
        [Call.listFileSystems [make_share_name ⟨i, sz, "NFS", inst⟩]] := by
  have hbad2 : ∃ a ∈ rules, badRule a := by
    obtain ⟨a, ha, hip, hrw, hro⟩ := hbad
    refine ⟨a, ha, ?_⟩
    simp [badRule, hip, manilaToFlashbladeAccessLevel, hrw, hro]
  obtain ⟨r, hfind⟩ := Option.isSome_iff_exists.mp (List.find?_isSome.mpr hbad2)
  have hr := List.find?_some hfind
  have hrmem := List.mem_of_find?_eq_some hfind
  have hrip : r.access_type = "ip" := by
    have := (by simpa [badRule, Bool.and_eq_true] using hr :
      (r.access_type == "ip") = true ∧
        (manilaToFlashbladeAccessLevel r.access_level).isNone = true).1
    simpa using this
  have hrnone : manilaToFlashbladeAccessLevel r.access_level = none :=
    Option.isNone_iff_eq_none.mp (by simpa [badRule, Bool.and_eq_true] using hr :
      (r.access_type == "ip") = true ∧
        (manilaToFlashbladeAccessLevel r.access_level).isNone = true).2
  have hrw : r.access_level ≠ "rw" := by
    intro hc; simp [manilaToFlashbladeAccessLevel, hc] at hrnone
  have hro : r.access_level ≠ "ro" := by
    intro hc; simp [manilaToFlashbladeAccessLevel, hc] at hrnone
  have hp2 : make_share_name ⟨i, sz, "NFS", inst⟩ ∈ st.filesystems := by
    simpa using hpresent
  refine ⟨r.access_level, ?_, ⟨r, hrmem, hrip, rfl⟩, hrw, hro, ?_⟩ <;>
    simp [update_access, update_nfs_access,
      get_flashblade_filesystem_by_name, hp2,
      nfsRulesLoop_badRule rules "" r hfind]

/-- C4 witness: a present share and the single bad rule
`{ip, 10.0.0.1, wx}`. -/
theorem invalid_access_level_aborts_update_witness :
    ((FBState.mk ["share-1-manila"] []).filesystems.contains
        (make_share_name ⟨"1", 1, "NFS", "1"⟩) = true ∧
      ∃ a ∈ [AccessRule.mk "ip" "10.0.0.1" "wx"], a.access_type = "ip" ∧
        a.access_level ≠ "rw" ∧ a.access_level ≠ "ro") ∧
    ∃ lvl,
      (update_access (FBState.mk ["share-1-manila"] []) ⟨"1", 1, "NFS", "1"⟩
          [AccessRule.mk "ip" "10.0.0.1" "wx"] [] []).1 =
        Except.error (PyExc.invalidShareAccessLevel lvl) ∧
      (∃ a ∈ [AccessRule.mk "ip" "10.0.0.1" "wx"], a.access_type = "ip" ∧
        a.access_level = lvl) ∧
      lvl ≠ "rw" ∧ lvl ≠ "ro" ∧
      (update_access (FBState.mk ["share-1-manila"] []) ⟨"1", 1, "NFS", "1"⟩
          [AccessRule.mk "ip" "10.0.0.1" "wx"] [] []).2 =
        [Call.listFileSystems [make_share_name ⟨"1", 1, "NFS", "1"⟩]] :=
  ⟨⟨by decide, by decide⟩,
   invalid_access_level_aborts_update _ _ _ _ _ _ _ (by decide) (by decide)⟩

/-- Helper: in the model (array calls succeed), `delete_share` always
returns success — both when the filesystem is absent (skip path) and when
it is present (soft delete, optional eradication). -/
theorem delete_share_ok (cfg : Config) (st : FBState) (share : Share) :
    (delete_share cfg st share).1 = Except.ok () := by
  by_cases hp : make_share_name share ∈ st.filesystems <;>
    simp [delete_share, get_flashblade_filesystem_by_name, hp]

/-- C1: when the derived filesystem name is absent on the array,
`delete_share` returns success and its trace is just the locator lookup —
no `update_file_systems` or `delete_file_systems` call; and running
`delete_share` a second time on the state left by the first run succeeds,
whatever the eradication flag. -/
theorem delete_share_idempotent (cfg : Config) (st : FBState)
    (share : Share) :
    (st.filesystems.contains (make_share_name share) = false →
      (delete_share cfg st share).1 = Except.ok () ∧
      (delete_share cfg st share).2 =
        [Call.listFileSystems [make_share_name share]]) ∧
    (delete_share cfg (applyCalls st (delete_share cfg st share).2)
        share).1 = Except.ok () := by
  refine ⟨fun habsent => ?_, delete_share_ok _ _ _⟩
  have ha2 : make_share_name share ∉ st.filesystems := by
    simpa using habsent
  simp [delete_share, get_flashblade_filesystem_by_name, ha2]

/-- C1 witness: an empty array, eradication enabled. -/
theorem delete_share_idempotent_witness :
    (FBState.mk [] []).filesystems.contains
        (make_share_name ⟨"a1", 1, "NFS", "a1"⟩) = false ∧
    ((delete_share ⟨"10.0.0.2", true⟩ ⟨[], []⟩ ⟨"a1", 1, "NFS", "a1"⟩).1 =
        Except.ok () ∧
      (delete_share ⟨"10.0.0.2", true⟩ ⟨[], []⟩ ⟨"a1", 1, "NFS", "a1"⟩).2 =
        [Call.listFileSystems [make_share_name ⟨"a1", 1, "NFS", "a1"⟩]]) ∧
    (delete_share ⟨"10.0.0.2", true⟩
        (applyCalls ⟨[], []⟩
          (delete_share ⟨"10.0.0.2", true⟩ ⟨[], []⟩
            ⟨"a1", 1, "NFS", "a1"⟩).2)
        ⟨"a1", 1, "NFS", "a1"⟩).1 = Except.ok () :=
  ⟨by decide,
   (delete_share_idempotent ⟨"10.0.0.2", true⟩ ⟨[], []⟩
      ⟨"a1", 1, "NFS", "a1"⟩).1 (by decide),
   (delete_share_idempotent ⟨"10.0.0.2", true⟩ ⟨[], []⟩
      ⟨"a1", 1, "NFS", "a1"⟩).2⟩

/-- C2 (code bug): on a snapshot absent from the array, `delete_snapshot`
does NOT log-and-return: evaluating `resu.items[0]` in the locator on the
empty result raises (`IndexError`), and the clause `except
exception.ShareResourceNotFound` in the operation cannot intervene (the
not-found exception the locator itself can raise would be
`ShareSnapshotNotFound`, a sibling class, and the log line inside the
clause dereferences the unbound local
`flashblade_snapshot` besides).  Evaluated at the failing input for both
values of the eradication flag: the call errors instead of returning. -/
theorem delete_snapshot_absent_raises :
    delete_snapshot ⟨"10.0.0.2", false⟩ ⟨[], []⟩ ⟨"snap1", "inst1"⟩ =
      (Except.error PyExc.indexError,
       [Call.listFileSystemSnapshots
          (snapFilter "share-inst1-manila" "snap1")]) ∧
    delete_snapshot ⟨"10.0.0.2", true⟩ ⟨[], []⟩ ⟨"snap1", "inst1"⟩ =
      (Except.error PyExc.indexError,
       [Call.listFileSystemSnapshots
          (snapFilter "share-inst1-manila" "snap1")]) := by
  exact ⟨rfl, rfl⟩

/-- Helper: merging the string literals of the NFS export path. -/
theorem nfs_path_lit (x y : String) :
    x ++ ":/" ++ ("share-" ++ y ++ "-manila") =
      x ++ ":/share-" ++ y ++ "-manila" := by
  have h1 : (":/" : String) ++ ("share-" ++ y ++ "-manila") =
      ":/share-" ++ y ++ "-manila" := by
    rw [String.append_assoc, ← String.append_assoc, ← String.append_assoc]
    rfl
  rw [String.append_assoc, h1, ← String.append_assoc, ← String.append_assoc]

/-- C5: for any NFS share, `create_share` issues exactly one filesystem
create (after the API-version query), carrying
`provisioned = size * 2^30` bytes, and returns the export location
`<data_address>:/share-<id>-manila`. -/
theorem create_share_nfs_provisioned_and_location (cfg : Config)
    (versions : List String) (i : String) (sz : Int) (inst : String) :
    (create_share cfg versions ⟨i, sz, "NFS", inst⟩).1 =
      Except.ok (cfg.data_address ++ ":/share-" ++ i ++ "-manila") ∧
    ∃ fs : FileSystemSpec,
      (create_share cfg versions ⟨i, sz, "NFS", inst⟩).2 =
        [Call.listVersions, Call.createFileSystems fs] ∧
      fs.provisioned = some (sz * 2 ^ 30) := by
  have hGi : sz * unitsGi = sz * 2 ^ 30 := by norm_num [unitsGi]
  constructor
  · simp [create_share, get_full_nfs_export_path, make_share_name,
      nfs_path_lit]
  · by_cases hv : "1.6" ∈ versions
    · refine ⟨{ emptySpec with
          name := some (make_share_name ⟨i, sz, "NFS", inst⟩),
          provisioned := some (sz * unitsGi),
          hard_limit_enabled := some true,
          fast_remove_directory_enabled := some true,
          snapshot_directory_enabled := some true,
          nfs_v3_enabled := some true, nfs_rules := some "",
          nfs_v4_1_enabled := some true }, ?_, ?_⟩
      · simp [create_share, hv]
      · norm_num [unitsGi]
    · refine ⟨{ emptySpec with
          name := some (make_share_name ⟨i, sz, "NFS", inst⟩),
          provisioned := some (sz * unitsGi),
          hard_limit_enabled := some true,
          fast_remove_directory_enabled := some true,
          snapshot_directory_enabled := some true,
          nfs_enabled := some true, nfs_rules := some "" }, ?_, ?_⟩
      · simp [create_share, hv]
      · norm_num [unitsGi]

/-- C6 (code bug): at the concrete CIFS share `id="1"` with data address
`10.0.0.2`, `create_share` returns the location with a SINGLE backslash
before the address (the Python template literal renders its
backslash-backslash escape as one backslash, and leaves a backslash
before a brace as-is), which
differs from the UNC form with two leading backslashes the claim states. -/
theorem cifs_export_path_single_backslash :
    (create_share ⟨"10.0.0.2", false⟩ [] ⟨"1", 1, "CIFS", "1"⟩).1 =
      Except.ok "\\10.0.0.2\\share-1-manila" ∧
    ("\\10.0.0.2\\share-1-manila" : String) ≠
      "\\\\10.0.0.2\\share-1-manila" := by
  exact ⟨rfl, by decide⟩

/-- C7: the capacity reporter derives `free = capacity - total_physical`,
`total = capacity`, `provisioned = unique` in bytes, and the stats record
divides each by `2^30`; at `capacity=1000, total_physical=400, unique=250`
the byte figures are `free=600, total=1000, provisioned=250`. -/
theorem capacity_reporter_fields :
    (∀ sp : ArraySpace,
      get_available_capacity sp =
        (sp.capacity - sp.total_physical, sp.capacity, sp.unique,
          sp.data_reduction) ∧
      update_share_stats sp =
        ⟨(sp.capacity : Rat) / 2 ^ 30,
         ((sp.capacity - sp.total_physical : Int) : Rat) / 2 ^ 30,
         (sp.unique : Rat) / 2 ^ 30,
         sp.data_reduction⟩) ∧
    get_available_capacity ⟨1000, 400, 250, 2⟩ = (600, 1000, 250, 2) := by
  have hGi : ((unitsGi : Int) : Rat) = 2 ^ 30 := by norm_num [unitsGi]
  refine ⟨fun sp => ⟨rfl, ?_⟩, by decide⟩
  simp [update_share_stats, get_available_capacity, hGi]

/-- C8: in every `delete_share` and `delete_snapshot` run, a hard delete
appears in the call trace only when the eradication flag is set and only
after an update soft-deleting (`destroyed=true`) the same resource earlier
in the same trace. -/
theorem hard_delete_preceded_by_soft_delete (cfg : Config) (st : FBState)
    (share : Share) (snapshot : Snapshot) :
    eradicationGuard cfg.flashblade_eradicate [] []
      (delete_share cfg st share).2 = true ∧
    eradicationGuard cfg.flashblade_eradicate [] []
      (delete_snapshot cfg st snapshot).2 = true := by
  constructor
  · by_cases hp : make_share_name share ∈ st.filesystems <;>
      by_cases he : cfg.flashblade_eradicate <;>
        simp [delete_share, get_flashblade_filesystem_by_name, hp, he,
          eradicationGuard]
  · rcases hh : (st.snapshots.filter (fun p =>
        snapFilter p.1 p.2 ==
          snapFilter (make_source_name snapshot) snapshot.id)).head? with
      _ | s <;>
      by_cases he : cfg.flashblade_eradicate <;>
        simp [delete_snapshot, get_flashblade_snapshot_by_name, hh, he,
          eradicationGuard]

/-- C9 counterexample: `create_share` is a lifecycle operation that
mutates array state, yet its trace at a concrete NFS share contains a
mutating call with no Resource Locator lookup before it — refuting the
claim that every mutating lifecycle operation checks existence first. -/
theorem create_share_mutates_without_locator_lookup :
    ¬ (locatorBeforeMutation false
        (create_share ⟨"10.0.0.2", false⟩ ["1.6"]
          ⟨"1", 1, "NFS", "1"⟩).2 = true) := by
  decide

/-- C9 (amended): the delete, resize and access-update operations issue a
Resource Locator lookup before any mutating call, but `create_share` (for
both protocols) and `create_snapshot` issue their create without any
prior existence lookup. -/
theorem locator_lookup_before_mutation_amended (cfg : Config)
    (st : FBState) (share : Share) (snapshot : Snapshot) (new_size : Int)
    (rules ar dr : List AccessRule) (versions : List String) (i : String)
    (sz : Int) (inst : String) :
    locatorBeforeMutation false (delete_share cfg st share).2 = true ∧
    locatorBeforeMutation false (delete_snapshot cfg st snapshot).2 = true ∧
    locatorBeforeMutation false (resize_share st share new_size).2 = true ∧
    locatorBeforeMutation false (update_access st share rules ar dr).2 =
      true ∧
    locatorBeforeMutation false
      (create_share cfg versions ⟨i, sz, "NFS", inst⟩).2 = false ∧
    locatorBeforeMutation false
      (create_share cfg versions ⟨i, sz, "CIFS", inst⟩).2 = false ∧
    locatorBeforeMutation false (create_snapshot st snapshot).2 = false := by
  refine ⟨?_, ?_, ?_, ?_, ?_, ?_, ?_⟩
  · by_cases hp : make_share_name share ∈ st.filesystems <;>
      by_cases he : cfg.flashblade_eradicate <;>
        simp [delete_share, get_flashblade_filesystem_by_name, hp, he,
          locatorBeforeMutation, isMutatingCall, isLocatorCall]
  · rcases hh : (st.snapshots.filter (fun p =>
        snapFilter p.1 p.2 ==
          snapFilter (make_source_name snapshot) snapshot.id)).head? with
      _ | s <;>
      by_cases he : cfg.flashblade_eradicate <;>
        simp [delete_snapshot, get_flashblade_snapshot_by_name, hh, he,
          locatorBeforeMutation, isMutatingCall, isLocatorCall]
  · by_cases hp : make_share_name share ∈ st.filesystems <;>
      simp [resize_share, get_flashblade_filesystem_by_name, hp,
        locatorBeforeMutation, isMutatingCall, isLocatorCall]
  · by_cases hproto : share.share_proto = "NFS"
    · by_cases hp : make_share_name share ∈ st.filesystems
      · rcases hnr : nfsRulesLoop rules "" with e | s <;>
          simp [update_access, update_nfs_access, hproto,
            get_flashblade_filesystem_by_name, hp, hnr,
            locatorBeforeMutation, isMutatingCall, isLocatorCall]
      · simp [update_access, update_nfs_access, hproto,
          get_flashblade_filesystem_by_name, hp,
          locatorBeforeMutation, isMutatingCall, isLocatorCall]
    · simp [update_access, hproto, locatorBeforeMutation]
  · by_cases hv : versions.contains "1.6" <;>
      simp [create_share, hv, locatorBeforeMutation, isMutatingCall,
        isLocatorCall]
  · simp [create_share, locatorBeforeMutation, isMutatingCall,
      isLocatorCall]
  · simp [create_snapshot, locatorBeforeMutation, isMutatingCall,
      isLocatorCall]

/-- C10: for any share whose protocol is not `NFS`, `update_access`
returns success with an empty call trace — a silent no-op, no exception
and no array call. -/
theorem update_access_non_nfs_noop (st : FBState) (share : Share)
    (rules ar dr : List AccessRule) (h : share.share_proto ≠ "NFS") :
    update_access st share rules ar dr = (Except.ok (), []) := by
  simp [update_access, h]

/-- C10 witness: a CIFS share with a nonempty rule list. -/
theorem update_access_non_nfs_noop_witness :
    (Share.mk "1" 1 "CIFS" "1").share_proto ≠ "NFS" ∧
    update_access ⟨["share-1-manila"], []⟩ ⟨"1", 1, "CIFS", "1"⟩
        [AccessRule.mk "ip" "10.0.0.1" "rw"] [] [] = (Except.ok (), []) :=
  ⟨by decide,
   update_access_non_nfs_noop _ _ _ _ _ (by decide)⟩

end FlashBlade
